import Mathlib

/-!
# Breaking-news detection service: shallow embedding and verification

This file embeds the core of the breaking-news detection service
(replay scheduler, scoring engine, dual-backend state store) in Lean 4
and proves the spec claims about it.

Modelling conventions:
* Python `datetime` instants are modelled as integers (seconds since the
  epoch); `timedelta(minutes=m)` is `m * 60` seconds, `timedelta(hours=h)`
  is `h * 3600` seconds.
* Python `float` scores are modelled as exact rationals `ℚ`; the score
  arithmetic in the source is plain `+`, `*`, `min`, comparison.
* Python `dict`s are association lists with unique keys, so deletion by
  key is a filter; Python `set`s are duplicate-free lists.
* The md5 hex digest used for deduplication is modelled by the normalized
  string itself: the claims depend only on md5 being a deterministic
  function of its input.
-/

namespace BreakingNews

/-! ## Configuration constants (src/config.py) -/

/-- Model of `BREAKING_SCORE_THRESHOLD = 0.50` -/
def BREAKING_SCORE_THRESHOLD : ℚ := 1/2

/-- Model of `VELOCITY_WINDOW_MINUTES = 30` -/
def VELOCITY_WINDOW_MINUTES : Int := 30

/-- Model of `VELOCITY_THRESHOLD = 3` -/
def VELOCITY_THRESHOLD : Nat := 3

/-- Model of `WEIGHT_KEYWORD = 0.40` -/
def WEIGHT_KEYWORD : ℚ := 2/5

/-- Model of `WEIGHT_VELOCITY = 0.35` -/
def WEIGHT_VELOCITY : ℚ := 7/20

/-- Model of `WEIGHT_CATEGORY = 0.15` -/
def WEIGHT_CATEGORY : ℚ := 3/20

/-- Model of `WEIGHT_RECENCY = 0.10` -/
def WEIGHT_RECENCY : ℚ := 1/10

/-- Model of `URGENCY_KEYWORDS` (src/config.py).  The Python value is a `set`;
iteration order of a Python set is arbitrary, so we fix one listing order.
Scores computed from it depend only on membership and count. -/
def URGENCY_KEYWORDS : List String :=
  ["breaking", "just in", "urgent", "alert", "emergency",
   "war", "invasion", "attack", "killed", "explosion", "missile",
   "bombing", "troops", "military", "airstrike", "casualties",
   "ceasefire", "strikes", "bomb", "threats", "shooting",
   "crisis", "catastrophe", "disaster", "evacuate", "flee",
   "collapse", "crash", "dies", "death toll", "dead",
   "sanctions", "resign", "impeach", "arrest", "protest",
   "coup", "election", "vote", "verdict", "sentenced",
   "convicted", "charged", "warrant", "investigation"]

/-- Model of `CATEGORY_SCORES` (src/config.py). -/
def CATEGORY_SCORES : List (String × ℚ) :=
  [("world", 9/10), ("europe", 17/20), ("politics", 17/20),
   ("business", 7/10), ("technology", 3/5), ("health", 3/5),
   ("science", 1/2), ("entertainment", 3/10), ("sport", 3/10),
   ("arts", 3/10)]

/-- Model of `DEFAULT_CATEGORY_SCORE = 0.5` -/
def DEFAULT_CATEGORY_SCORE : ℚ := 1/2

/-! ## Data model (src/models.py) -/

/-- Model of `NewsArticle` (src/models.py): raw news article from the data source. -/
structure NewsArticle where
  id : String
  title : String
  description : String
  pub_date : Int
  link : String
  category : Option String := none
  deriving DecidableEq, Repr

/-- Model of `ScoredArticle` (src/models.py): scored article with breaking-news
scoring details.  The pydantic validators constrain each score field to
`[0,1]`; the bounds are proved, not baked into the type. -/
structure ScoredArticle where
  article : NewsArticle
  keyword_score : ℚ
  velocity_score : ℚ
  category_score : ℚ
  recency_score : ℚ
  total_score : ℚ
  is_breaking : Bool := false
  detected_keywords : List String := []
  topic : Option String := none
  detected_at : Int
  deriving DecidableEq, Repr

/-! ## String helpers

Python's `keyword in title` substring test, `str.lower`, `str.strip`, and
the regex word scan `\b[a-zA-Z]{4,}\b` are modelled over ASCII text. -/

/-- Python's `needle in hay` substring containment: `""` is contained in
everything; otherwise `hay.splitOn needle` has a second chunk exactly when
`needle` occurs in `hay`. -/
def strContains (hay needle : String) : Bool :=
  if needle = "" then true else (hay.splitOn needle).length ≥ 2

/-- A regex word character `\w = [a-zA-Z0-9_]` (ASCII). -/
def isWordChar (c : Char) : Bool :=
  c.isAlphanum || c = '_'

/-- Split a character list into its maximal runs of word characters
(the accumulator holds the current run, reversed). -/
def wordRunsAux : List Char → List Char → List String
  | [], acc => if acc.isEmpty then [] else [String.mk acc.reverse]
  | c :: cs, acc =>
      if isWordChar c then wordRunsAux cs (c :: acc)
      else if acc.isEmpty then wordRunsAux cs []
      else String.mk acc.reverse :: wordRunsAux cs []

/-- Maximal runs of word characters in a string. -/
def wordRuns (s : String) : List String := wordRunsAux s.toList []

/-- The matches of `re.findall(r'\b[a-zA-Z]{4,}\b', s)`: a maximal word
run matches exactly when it is made of letters only and has length ≥ 4
(a digit or underscore inside the run kills the trailing `\b`). -/
def wordMatches (s : String) : List String :=
  (wordRuns s).filter (fun w => w.toList.all Char.isAlpha && w.length ≥ 4)

/-! ## Scoring engine (src/scoring.py) -/

/-- Model of `calculate_keyword_score` (src/scoring.py:16): urgency score from
keyword substring matches in the lowercased title. -/
def calculate_keyword_score (title : String) : ℚ × List String :=
  let title_lower := title.toLower
  let detected := URGENCY_KEYWORDS.filter (fun k => strContains title_lower k)
  if detected.isEmpty then (0, [])
  else
    let score := min ((detected.length : ℚ) * (3/10)) 1
    let high_urgency := ["breaking", "just in", "urgent", "killed", "attack", "war"]
    let score :=
      if high_urgency.any (fun k => detected.contains k) then min (score + 3/10) 1
      else score
    (score, detected)

/-- Model of `extract_topic` (src/scoring.py:61): first major-topic substring of
the lowercased title, else the first all-letter word of length ≥ 4,
else `"general"`. -/
def extract_topic (title : String) : String :=
  let title_lower := title.toLower
  let major_topics :=
    ["ukraine", "russia", "putin", "zelensky", "kyiv", "moscow",
     "covid", "coronavirus", "pandemic",
     "china", "taiwan", "beijing",
     "israel", "gaza", "palestine",
     "climate", "earthquake", "hurricane",
     "trump", "biden", "election"]
  match major_topics.find? (fun t => strContains title_lower t) with
  | some t => t
  | none =>
      match wordMatches title with
      | w :: _ => w.toLower
      | [] => "general"

/-- Model of `calculate_category_score` (src/scoring.py:87): priority-table lookup
with a default; `if not category` is Python falsiness, so both `None` and
the empty string take the default. -/
def calculate_category_score (category : Option String) : ℚ :=
  match category with
  | none => DEFAULT_CATEGORY_SCORE
  | some c =>
      if c = "" then DEFAULT_CATEGORY_SCORE
      else ((CATEGORY_SCORES.lookup c).getD DEFAULT_CATEGORY_SCORE)

/-- Model of `calculate_recency_score` (src/scoring.py:94): tiers by the age in
hours of the article relative to the simulated clock; `1.0` when no
simulated clock is set. -/
def calculate_recency_score (simulation_time : Option Int) (pub_date : Int) : ℚ :=
  match simulation_time with
  | none => 1
  | some sim =>
      let age : ℚ := ((sim : ℚ) - (pub_date : ℚ)) / 3600
      if age < 1 then 1
      else if age < 3 then 4/5
      else if age < 6 then 1/2
      else 1/5

/-! ## In-process state store (src/state.py) -/

/-- Model of `StateStore` (src/state.py:9): in-process store.  `breaking_news` and
`topic_windows` are Python dicts modelled as association lists with unique
keys; `topic_windows` is a `defaultdict(list)`, so a missing topic reads
as `[]`; `seen_hashes` is a Python set modelled as a duplicate-free
list. -/
structure StateStore where
  breaking_news : List (String × ScoredArticle) := []
  topic_windows : List (String × List (Int × String)) := []
  seen_hashes : List String := []
  total_processed : Nat := 0
  start_time : Int := 0
  simulation_time : Option Int := none
  last_processed_time : Option Int := none
  last_cleanup_time : Option Int := none
  deriving DecidableEq, Repr

/-- Insert-or-overwrite into an association list (Python `d[k] = v`):
overwrite in place when the key is present (keys are unique), else append. -/
def dictSet {α : Type} : List (String × α) → String → α → List (String × α)
  | [], k, v => [(k, v)]
  | e :: t, k, v => if e.1 = k then (k, v) :: t else e :: dictSet t k v

/-- Model of `defaultdict(list)` read: a missing topic's window is `[]`. -/
def StateStore.windowOf (s : StateStore) (topic : String) : List (Int × String) :=
  (s.topic_windows.lookup topic).getD []

/-- Python `set.add`: insert if absent. -/
def setAdd (l : List String) (h : String) : List String :=
  if l.contains h then l else l ++ [h]

/-- The clock used by the cleanup operations (src/state.py:44,63): the
simulated time when set, else wall time (`now`). -/
def StateStore.currentTime (s : StateStore) (now : Int) : Int :=
  (s.simulation_time).getD now

/-- Model of `calculate_velocity_score` (src/scoring.py:39): append `(pub_date,
article_id)` to the topic's window, keep only entries with timestamp
`≥ pub_date − VELOCITY_WINDOW_MINUTES`, and score the remaining count.
Returns the score together with the mutated store. -/
def calculate_velocity_score (s : StateStore) (topic : String)
    (pub_date : Int) (article_id : String) : ℚ × StateStore :=
  let cutoff := pub_date - VELOCITY_WINDOW_MINUTES * 60
  let window :=
    ((s.windowOf topic) ++ [(pub_date, article_id)]).filter
      (fun e => cutoff ≤ e.1)
  let s' := { s with topic_windows := dictSet s.topic_windows topic window }
  let count := window.length
  if count ≥ VELOCITY_THRESHOLD then
    (min (((count : ℚ) - (VELOCITY_THRESHOLD : ℚ) + 1) * (3/10) + 2/5) 1, s')
  else (0, s')

/-- Model of `StateStore.cleanup_expired_breaking_news` (src/state.py:43): collect
the ids with `detected_at < clock − ttl_hours` (`expired_ids`), delete
them, and return how many there were.  `BREAKING_NEWS_TTL_HOURS` is
imported in src/state.py but its value is absent from src/config.py in
this tree, so the TTL is a parameter here. -/
def StateStore.cleanup_expired_breaking_news (s : StateStore)
    (ttl_hours now : Int) : StateStore × Nat :=
  let cutoff := s.currentTime now - ttl_hours * 3600
  let expired := s.breaking_news.filter (fun e => e.2.detected_at < cutoff)
  let kept := s.breaking_news.filter (fun e => ¬ e.2.detected_at < cutoff)
  ({ s with breaking_news := kept }, expired.length)

/-- Model of `StateStore.cleanup_topic_windows` (src/state.py:62): prune every
topic's window to entries with timestamp `≥ clock − 2 ·
VELOCITY_WINDOW_MINUTES`, keeping the topic key even when its window
empties, and return the number of topics whose window shrank. -/
def StateStore.cleanup_topic_windows (s : StateStore) (now : Int) :
    StateStore × Nat :=
  let cutoff := s.currentTime now - VELOCITY_WINDOW_MINUTES * 2 * 60
  let windows := s.topic_windows.map
    (fun e => (e.1, e.2.filter (fun p => cutoff ≤ p.1)))
  let cleaned := s.topic_windows.countP
    (fun e => (e.2.filter (fun p => cutoff ≤ p.1)).length < e.2.length)
  ({ s with topic_windows := windows }, cleaned)

/-! ## Stream processor (src/main.py) -/

/-- Model of `StreamProcessor._hash_content` (src/main.py:191): md5 of the
lowercased, trimmed title.  md5 is modelled by the normalized string
itself; the dedup logic uses only that equal inputs hash equally. -/
def hash_content (title : String) : String :=
  (title.toLower).trim

/-- Model of `StreamProcessor._process_article` (src/main.py:128): dedup gate,
then the four component scores (velocity mutates the topic window),
the weighted total, and conditional insertion into `breaking_news`.
`now` is the wall-clock instant recorded as `detected_at`.  Returns the
scored article (`none` when the duplicate gate skips) and the new
store. -/
def process_article (s : StateStore) (a : NewsArticle) (now : Int) :
    Option ScoredArticle × StateStore :=
  let content_hash := hash_content a.title
  if s.seen_hashes.contains content_hash then (none, s)
  else
    let s := { s with seen_hashes := setAdd s.seen_hashes content_hash }
    let topic := extract_topic a.title
    let kw := calculate_keyword_score a.title
    let keyword_score := kw.1
    let detected_keywords := kw.2
    let vs := calculate_velocity_score s topic a.pub_date a.id
    let velocity_score := vs.1
    let s := vs.2
    let category_score := calculate_category_score a.category
    let recency_score := calculate_recency_score s.simulation_time a.pub_date
    let total_score :=
      keyword_score * WEIGHT_KEYWORD +
      velocity_score * WEIGHT_VELOCITY +
      category_score * WEIGHT_CATEGORY +
      recency_score * WEIGHT_RECENCY
    let scored : ScoredArticle :=
      { article := a
        keyword_score := keyword_score
        velocity_score := velocity_score
        category_score := category_score
        recency_score := recency_score
        total_score := total_score
        is_breaking := decide (total_score ≥ BREAKING_SCORE_THRESHOLD)
        detected_keywords := detected_keywords
        topic := some topic
        detected_at := now }
    let s :=
      if scored.is_breaking then
        { s with breaking_news := dictSet s.breaking_news a.id scored }
      else s
    (some scored, { s with total_processed := s.total_processed + 1 })

/-- One step of `StreamProcessor._process_stream` (src/main.py:102,115):
set the simulated clock to the article's publish time, then process the
article. -/
def process_stream_step (s : StateStore) (a : NewsArticle) (now : Int) :
    Option ScoredArticle × StateStore :=
  process_article { s with simulation_time := some a.pub_date } a now

/-! ## JSON values and ScoredArticle serialization (src/state_redis.py)

The Redis backend persists a `ScoredArticle` as `model_dump_json` output
and reads it back with `ScoredArticle(**json.loads(data))`.  JSON values
are modelled by an inductive; a JSON string that is a well-formed
offset-carrying ISO-8601 timestamp — the only kind the backend itself
ever writes, since every persisted `datetime` is timezone-aware — is
represented by the `tstr` constructor carrying the instant it denotes
(`isoformat`/`fromisoformat` are mutually inverse on such strings), while
`str` covers the strings `fromisoformat` rejects.  Offset-less timestamp
strings, which parse but then raise on the aware-vs-naive comparison, are
outside this string model. -/

inductive Json where
  | null
  | bool (b : Bool)
  | num (q : ℚ)
  | str (s : String)
  | tstr (t : Int)
  | arr (elems : List Json)
  | obj (fields : List (String × Json))

/-- Python truthiness of a decoded JSON value (`if detected_at_str:`). -/
def jsonTruthy : Json → Bool
  | .null => false
  | .bool b => b
  | .num q => decide (q ≠ 0)
  | .str s => decide (s ≠ "")
  | .tstr _ => true
  | .arr xs => !xs.isEmpty
  | .obj fs => !fs.isEmpty

/-- Model of `model_dump_json` of a `NewsArticle`: every field, timestamps as
ISO strings, `None` as `null`. -/
def encodeNews (a : NewsArticle) : Json :=
  .obj [("id", .str a.id),
        ("title", .str a.title),
        ("description", .str a.description),
        ("pub_date", .tstr a.pub_date),
        ("link", .str a.link),
        ("category", match a.category with | none => .null | some c => .str c)]

/-- Model of `model_dump_json` of a `ScoredArticle`, nesting the article. -/
def encodeScored (sa : ScoredArticle) : Json :=
  .obj [("article", encodeNews sa.article),
        ("keyword_score", .num sa.keyword_score),
        ("velocity_score", .num sa.velocity_score),
        ("category_score", .num sa.category_score),
        ("recency_score", .num sa.recency_score),
        ("total_score", .num sa.total_score),
        ("is_breaking", .bool sa.is_breaking),
        ("detected_keywords", .arr (sa.detected_keywords.map .str)),
        ("topic", match sa.topic with | none => .null | some t => .str t),
        ("detected_at", .tstr sa.detected_at)]

/-- pydantic `str` field validation. -/
def decodeStr : Json → Option String
  | .str s => some s
  | _ => none

/-- pydantic `Optional[str]` field validation. -/
def decodeOptStr : Json → Option (Option String)
  | .null => some none
  | .str s => some (some s)
  | _ => none

/-- pydantic `datetime` field validation: parses an ISO timestamp
string. -/
def decodeTime : Json → Option Int
  | .tstr t => some t
  | _ => none

/-- pydantic `float` field with `ge=0, le=1` validators
(src/models.py:21-25). -/
def decodeScore : Json → Option ℚ
  | .num q => if 0 ≤ q ∧ q ≤ 1 then some q else none
  | _ => none

/-- pydantic `bool` field validation. -/
def decodeBool : Json → Option Bool
  | .bool b => some b
  | _ => none

/-- pydantic `list[str]` field validation. -/
def decodeStrList : Json → Option (List String)
  | .arr xs => xs.mapM decodeStr
  | _ => none

/-- Model of `NewsArticle(**d)`: pydantic construction from a decoded JSON
object; every field of src/models.py:8 is validated, `category`
defaulting to `None` when absent. -/
def decodeNews : Json → Option NewsArticle
  | .obj fs => do
      let id ← (fs.lookup "id").bind decodeStr
      let title ← (fs.lookup "title").bind decodeStr
      let description ← (fs.lookup "description").bind decodeStr
      let pub_date ← (fs.lookup "pub_date").bind decodeTime
      let link ← (fs.lookup "link").bind decodeStr
      let category ←
        match fs.lookup "category" with
        | none => some none
        | some v => decodeOptStr v
      some { id, title, description, pub_date, link, category }
  | _ => none

/-- Model of `ScoredArticle(**d)`: pydantic construction from a decoded JSON
object (src/state_redis.py:216), re-running the `[0,1]` score
validators; fields with declared defaults take them when absent
(`detected_at`'s wall-clock default factory is not modelled — the
backend always persists the field). -/
def decodeScored : Json → Option ScoredArticle
  | .obj fs => do
      let article ← (fs.lookup "article").bind decodeNews
      let keyword_score ← (fs.lookup "keyword_score").bind decodeScore
      let velocity_score ← (fs.lookup "velocity_score").bind decodeScore
      let category_score ← (fs.lookup "category_score").bind decodeScore
      let recency_score ← (fs.lookup "recency_score").bind decodeScore
      let total_score ← (fs.lookup "total_score").bind decodeScore
      let is_breaking ←
        match fs.lookup "is_breaking" with
        | none => some false
        | some v => decodeBool v
      let detected_keywords ←
        match fs.lookup "detected_keywords" with
        | none => some []
        | some v => decodeStrList v
      let topic ←
        match fs.lookup "topic" with
        | none => some none
        | some v => decodeOptStr v
      let detected_at ← (fs.lookup "detected_at").bind decodeTime
      some { article, keyword_score, velocity_score, category_score,
             recency_score, total_score, is_breaking, detected_keywords,
             topic, detected_at }
  | _ => none

/-! ## Shared (Redis-backed) state store (src/state_redis.py)

A persisted Redis string value is modelled by its JSON-parse outcome:
`empty` for the falsy empty string (`if data:` skips it), `invalid` for a
string `json.loads` rejects, `json j` for a string parsing to `j`. -/

inductive Blob where
  | empty
  | invalid (s : String)
  | json (j : Json)

/-- Model of `RedisDict.__setitem__` (src/state_redis.py:218): persist
`model_dump_json` of the value under the key. -/
def redisDictSet (store : List (String × Blob)) (k : String)
    (v : ScoredArticle) : List (String × Blob) :=
  dictSet store k (Blob.json (encodeScored v))

/-- Model of `RedisDict.__getitem__` (src/state_redis.py:211): read the persisted
string, `json.loads` it, rebuild the `ScoredArticle`; `none` models both
`KeyError` and decode failure. -/
def redisDictGet (store : List (String × Blob)) (k : String) :
    Option ScoredArticle :=
  match store.lookup k with
  | some (Blob.json j) => decodeScored j
  | _ => none

/-- The branch `RedisStateStore.cleanup_expired_breaking_news` takes on
one persisted record (src/state_redis.py:170-183): `ok (delete, count)`
when the loop body finishes, `error ()` when it raises an exception the
`except (json.JSONDecodeError, ValueError)` clause does not catch — an
`AttributeError` from `.get` on a non-dict, or a `TypeError` from
`fromisoformat` on a truthy non-string. -/
def redisCleanupRecord (cutoff : Int) (b : Blob) :
    Except Unit (Bool × Bool) :=
  match b with
  | .empty => .ok (false, false)
  | .invalid _ => .ok (true, false)
  | .json (.obj fs) =>
      match fs.lookup "detected_at" with
      | none => .ok (false, false)
      | some v =>
          if jsonTruthy v then
            match v with
            | .tstr t => if t < cutoff then .ok (true, true) else .ok (false, false)
            | .str _ => .ok (true, false)
            | _ => .error ()
          else .ok (false, false)
  | .json _ => .error ()

/-- The scan loop of `RedisStateStore.cleanup_expired_breaking_news`:
drop the records `redisCleanupRecord` deletes, add up the expired count,
abort on an uncaught exception. -/
def redisCleanupGo (cutoff : Int) :
    List (String × Blob) → Except Unit (List (String × Blob) × Nat)
  | [] => .ok ([], 0)
  | e :: rest =>
      match redisCleanupRecord cutoff e.2 with
      | .error _ => .error ()
      | .ok (del, cnt) =>
          match redisCleanupGo cutoff rest with
          | .error _ => .error ()
          | .ok (kept, n) =>
              .ok (if del then kept else e :: kept,
                   (if cnt then 1 else 0) + n)

/-- Model of `RedisStateStore.cleanup_expired_breaking_news`
(src/state_redis.py:161): cutoff from the simulated clock (else wall
time) minus the TTL, then the scan loop over all persisted breaking-news
records. -/
def RedisStateStore.cleanup_expired_breaking_news (sim : Option Int)
    (ttl_hours now : Int) (entries : List (String × Blob)) :
    Except Unit (List (String × Blob) × Nat) :=
  redisCleanupGo (sim.getD now - ttl_hours * 3600) entries

/-- Model of `RedisStateStore.cleanup_topic_windows` (src/state_redis.py:187):
`ZREMRANGEBYSCORE key -inf cutoff` removes the members with score `≤
cutoff` (the max bound is inclusive), and a Redis sorted set emptied of
its members ceases to exist, so a fully pruned topic's key disappears;
counts the topics with at least one removed member. -/
def RedisStateStore.cleanup_topic_windows (sim : Option Int) (now : Int)
    (windows : List (String × List (Int × String))) :
    List (String × List (Int × String)) × Nat :=
  let cutoff := sim.getD now - VELOCITY_WINDOW_MINUTES * 2 * 60
  let pruned := windows.map
    (fun e => (e.1, e.2.filter (fun p => ¬ p.1 ≤ cutoff)))
  let cleaned := windows.countP
    (fun e => 0 < e.2.countP (fun p => p.1 ≤ cutoff))
  (pruned.filter (fun e => !e.2.isEmpty), cleaned)

/-! ## Characterization predicates for the shared-store cleanup

These name the three possible fates of a persisted record under
`RedisStateStore.cleanup_expired_breaking_news`, for stating what the
scan loop does record by record. -/

/-- The record makes the cleanup raise an exception its `except` clause
does not catch: JSON that is not an object, or a truthy non-string
`detected_at`. -/
def blobRaises (b : Blob) : Bool :=
  match b with
  | .json (.obj fs) =>
      match fs.lookup "detected_at" with
      | some v =>
          jsonTruthy v &&
            (match v with
             | .tstr _ => false
             | .str _ => false
             | _ => true)
      | none => false
  | .json _ => true
  | _ => false

/-- The record is deleted by the cleanup: unparseable JSON, a
`detected_at` string that is not a timestamp, or a genuinely expired
timestamp. -/
def blobDeleted (cutoff : Int) (b : Blob) : Bool :=
  match b with
  | .invalid _ => true
  | .json (.obj fs) =>
      match fs.lookup "detected_at" with
      | some (.tstr t) => decide (t < cutoff)
      | some (.str s) => decide (s ≠ "")
      | _ => false
  | _ => false

/-- The record is counted in the returned expired count: a parseable
timestamp before the cutoff. -/
def blobExpired (cutoff : Int) (b : Blob) : Bool :=
  match b with
  | .json (.obj fs) =>
      match fs.lookup "detected_at" with
      | some (.tstr t) => decide (t < cutoff)
      | _ => false
  | _ => false

/-! ## Concrete sample data, for instantiating theorems with hypotheses -/

/-- A sample article: no urgency keyword, no category. -/
def wArticle : NewsArticle :=
  { id := "a1", title := "xyzzy stuff", description := "", pub_date := 0,
    link := "", category := none }

/-- A second sample article whose title normalizes like `wArticle`'s. -/
def wArticle2 : NewsArticle :=
  { id := "a2", title := "xyzzy stuff", description := "", pub_date := 1,
    link := "", category := none }

/-- The scored article `_process_article` produces for `wArticle` on an
empty store at wall time 7. -/
def wScored : ScoredArticle :=
  { article := wArticle, keyword_score := 0, velocity_score := 0,
    category_score := 1/2, recency_score := 1, total_score := 7/40,
    is_breaking := false, detected_keywords := [], topic := some "xyzzy",
    detected_at := 7 }

/-! ## Helper lemmas -/

theorem dictSet_lookup_self {α : Type} (l : List (String × α)) (k : String)
    (v : α) : (dictSet l k v).lookup k = some v := by
  induction l with
  | nil => simp [dictSet, List.lookup]
  | cons e t ih =>
      by_cases h : e.1 = k
      · simp [dictSet, h, List.lookup]
      · simp only [dictSet, h, if_false, List.lookup]
        have : (k == e.1) = false := by
          simp [beq_iff_eq]; exact fun hk => h hk.symm
        simp [this, ih]

theorem dictSet_lookup_ne {α : Type} (l : List (String × α)) (k k' : String)
    (v : α) (h : k' ≠ k) : (dictSet l k v).lookup k' = l.lookup k' := by
  have hbq : (k' == k) = false := by
    simp [beq_iff_eq]; exact h
  induction l with
  | nil => simp [dictSet, List.lookup, hbq]
  | cons e t ih =>
      by_cases he : e.1 = k
      · subst he
        simp [dictSet, List.lookup, hbq]
      · simp only [dictSet, he, if_false, List.lookup]
        cases hbe : (k' == e.1) <;> simp [ih]

theorem velocity_preserves_sim (s : StateStore) (topic : String)
    (pub_date : Int) (article_id : String) :
    (calculate_velocity_score s topic pub_date article_id).2.simulation_time
      = s.simulation_time := by
  unfold calculate_velocity_score
  dsimp only
  split <;> rfl

/-- How `_process_article` fills in a scored article when the dedup gate
does not skip: each field comes from the corresponding scoring function,
velocity being computed on the store that already holds the new dedup
hash, recency on the unchanged simulated clock. -/
theorem process_article_some_eq (s : StateStore) (a : NewsArticle)
    (now : Int) (sc : ScoredArticle)
    (h : (process_article s a now).1 = some sc) :
    sc.article = a ∧
    sc.keyword_score = (calculate_keyword_score a.title).1 ∧
    sc.detected_keywords = (calculate_keyword_score a.title).2 ∧
    sc.velocity_score = (calculate_velocity_score
        { s with seen_hashes := setAdd s.seen_hashes (hash_content a.title) }
        (extract_topic a.title) a.pub_date a.id).1 ∧
    sc.category_score = calculate_category_score a.category ∧
    sc.recency_score = calculate_recency_score s.simulation_time a.pub_date ∧
    sc.total_score = sc.keyword_score * WEIGHT_KEYWORD
        + sc.velocity_score * WEIGHT_VELOCITY
        + sc.category_score * WEIGHT_CATEGORY
        + sc.recency_score * WEIGHT_RECENCY ∧
    sc.is_breaking = decide (BREAKING_SCORE_THRESHOLD ≤ sc.total_score) ∧
    sc.topic = some (extract_topic a.title) ∧
    sc.detected_at = now := by
  simp only [process_article] at h
  split at h
  · exact absurd h (by simp)
  · dsimp only at h
    simp only [Option.some.injEq] at h
    subst h
    refine ⟨rfl, rfl, rfl, rfl, rfl, ?_, rfl, rfl, rfl, rfl⟩
    dsimp only
    rw [velocity_preserves_sim]

/-- Bounds for the keyword component (src/scoring.py:16). -/
theorem keyword_score_bounds (title : String) :
    0 ≤ (calculate_keyword_score title).1 ∧
    (calculate_keyword_score title).1 ≤ 1 := by
  unfold calculate_keyword_score
  dsimp only
  split
  · norm_num
  · split
    · exact ⟨by positivity, min_le_right _ _⟩
    · exact ⟨by positivity, min_le_right _ _⟩

/-- Bounds for the velocity component (src/scoring.py:39). -/
theorem velocity_score_bounds (s : StateStore) (topic : String)
    (pub_date : Int) (article_id : String) :
    0 ≤ (calculate_velocity_score s topic pub_date article_id).1 ∧
    (calculate_velocity_score s topic pub_date article_id).1 ≤ 1 := by
  unfold calculate_velocity_score VELOCITY_THRESHOLD
  dsimp only
  split
  · rename_i h
    have h3 : (3 : ℚ) ≤ ((((s.windowOf topic) ++ [(pub_date, article_id)]).filter
        (fun e => decide (pub_date - VELOCITY_WINDOW_MINUTES * 60 ≤ e.1))).length : ℚ) := by
      exact_mod_cast h
    constructor
    · apply le_min _ _
      · nlinarith
      · norm_num
    · exact min_le_right _ _
  · norm_num

theorem lookup_getD_bounds (s : String) (l : List (String × ℚ)) (d : ℚ)
    (hl : ∀ p ∈ l, 0 ≤ p.2 ∧ p.2 ≤ 1) (hd : 0 ≤ d ∧ d ≤ 1) :
    0 ≤ (l.lookup s).getD d ∧ (l.lookup s).getD d ≤ 1 := by
  induction l with
  | nil => simpa [List.lookup]
  | cons e t ih =>
      simp only [List.lookup]
      cases hbe : (s == e.1)
      · simp only [hbe]
        exact ih (fun p hp => hl p (List.mem_cons_of_mem _ hp))
      · simp only [hbe, Option.getD_some]
        exact hl e (List.mem_cons_self _ _)

/-- Bounds for the category component (src/scoring.py:87): every table
value lies in `[0.3, 0.9]` and the default is `0.5`. -/
theorem category_score_bounds (c : Option String) :
    0 ≤ calculate_category_score c ∧ calculate_category_score c ≤ 1 := by
  unfold calculate_category_score DEFAULT_CATEGORY_SCORE
  match c with
  | none => norm_num
  | some s =>
      dsimp only
      split
      · norm_num
      · refine lookup_getD_bounds s CATEGORY_SCORES (1/2) ?_ (by norm_num)
        intro p hp
        fin_cases hp <;> norm_num

/-- Bounds for the recency component (src/scoring.py:94): the value is
one of `1, 0.8, 0.5, 0.2`. -/
theorem recency_score_bounds (sim : Option Int) (pub_date : Int) :
    0 ≤ calculate_recency_score sim pub_date ∧
    calculate_recency_score sim pub_date ≤ 1 := by
  unfold calculate_recency_score
  match sim with
  | none => norm_num
  | some t =>
      dsimp only
      split
      · norm_num
      · split
        · norm_num
        · split <;> norm_num

/-! ## Claim theorems -/

/-- C3: the velocity-score operation first appends `(publish time,
article id)` to the topic's window, then removes exactly the entries
with timestamp earlier than `publish_time − window_minutes`, and with
`count` the remaining window size returns
`min((count − 3 + 1)·0.3 + 0.4, 1)` when `count ≥ 3` (threshold 3) —
i.e. `min((count − 2)·0.3 + 0.4, 1)` — and `0` otherwise. -/
theorem velocity_score_appends_prunes_scores
    (s : StateStore) (topic article_id : String) (pub_date : Int) :
    (calculate_velocity_score s topic pub_date article_id).2.windowOf topic
      = ((s.windowOf topic) ++ [(pub_date, article_id)]).filter
          (fun e => ¬ e.1 < pub_date - VELOCITY_WINDOW_MINUTES * 60) ∧
    (calculate_velocity_score s topic pub_date article_id).1
      = (if 3 ≤ (((s.windowOf topic) ++ [(pub_date, article_id)]).filter
              (fun e => ¬ e.1 < pub_date - VELOCITY_WINDOW_MINUTES * 60)).length
         then
           min
             (((((s.windowOf topic) ++ [(pub_date, article_id)]).filter
                  (fun e => ¬ e.1 < pub_date - VELOCITY_WINDOW_MINUTES * 60)).length
                 - 2 : ℚ) * (3/10) + 2/5)
             1
         else 0) := by
  have hfilter :
      ∀ l : List (Int × String),
        l.filter (fun e => ¬ e.1 < pub_date - VELOCITY_WINDOW_MINUTES * 60)
          = l.filter (fun e => pub_date - VELOCITY_WINDOW_MINUTES * 60 ≤ e.1) := by
    intro l
    apply List.filter_congr
    intro e _
    simp [not_lt]
  rw [hfilter]
  constructor
  · simp only [calculate_velocity_score]
    split <;>
      simp [StateStore.windowOf, dictSet_lookup_self]
  · simp only [calculate_velocity_score, StateStore.windowOf, VELOCITY_THRESHOLD]
    split
    · dsimp only
      congr 1
      push_cast
      ring
    · rfl

/-- C6: `cleanup_expired_breaking_news` removes exactly the breaking-news
entries with `detected_at < clock − ttl_hours·3600` (clock = simulated
time when set, else wall time), returns the number removed, and an
immediately repeated call under the same clock removes 0. -/
theorem cleanup_expired_breaking_news_exact (ttl_hours now : Int)
    (s : StateStore) :
    (s.cleanup_expired_breaking_news ttl_hours now).1.breaking_news
      = s.breaking_news.filter
          (fun e => ¬ e.2.detected_at < s.currentTime now - ttl_hours * 3600) ∧
    (s.cleanup_expired_breaking_news ttl_hours now).2
      = s.breaking_news.countP
          (fun e => e.2.detected_at < s.currentTime now - ttl_hours * 3600) ∧
    ((s.cleanup_expired_breaking_news ttl_hours now).1.cleanup_expired_breaking_news
        ttl_hours now).2 = 0 := by
  refine ⟨rfl, ?_, ?_⟩
  · simp [StateStore.cleanup_expired_breaking_news, List.countP_eq_length_filter]
  · simp only [StateStore.cleanup_expired_breaking_news, StateStore.currentTime]
    rw [List.length_eq_zero, List.filter_eq_nil_iff]
    intro e he
    have h2 := (List.mem_filter.mp he).2
    simp only [decide_eq_true_eq, not_lt] at h2 ⊢
    exact h2

/-- C2: for every scored article, `total_score` equals
`0.40·keyword_score + 0.35·velocity_score + 0.15·category_score +
0.10·recency_score`, and `is_breaking` holds iff `total_score ≥ 0.50`. -/
theorem total_score_weighted_combination (s : StateStore) (a : NewsArticle)
    (now : Int) (sc : ScoredArticle)
    (h : (process_article s a now).1 = some sc) :
    sc.total_score = (0.40 : ℚ) * sc.keyword_score
        + 0.35 * sc.velocity_score + 0.15 * sc.category_score
        + 0.10 * sc.recency_score ∧
    (sc.is_breaking = true ↔ (0.50 : ℚ) ≤ sc.total_score) := by
  obtain ⟨-, -, -, -, -, -, htot, hbr, -, -⟩ :=
    process_article_some_eq s a now sc h
  constructor
  · rw [htot]
    unfold WEIGHT_KEYWORD WEIGHT_VELOCITY WEIGHT_CATEGORY WEIGHT_RECENCY
    norm_num
    ring
  · rw [hbr]
    unfold BREAKING_SCORE_THRESHOLD
    norm_num

/-- Witness for C2 at `wArticle`. -/
theorem total_score_weighted_combination_witness :
    (process_article {} wArticle 7).1 = some wScored ∧
    (wScored.total_score = (0.40 : ℚ) * wScored.keyword_score
        + 0.35 * wScored.velocity_score + 0.15 * wScored.category_score
        + 0.10 * wScored.recency_score ∧
     (wScored.is_breaking = true ↔ (0.50 : ℚ) ≤ wScored.total_score)) :=
  ⟨by with_unfolding_all rfl,
   total_score_weighted_combination {} wArticle 7 wScored
     (by with_unfolding_all rfl)⟩

/-- C4: every component score and the total of a scored article lie in
`[0,1]`, so the `[0,1]` field validators of `ScoredArticle` cannot fire
on pipeline output. -/
theorem scores_in_unit_interval (s : StateStore) (a : NewsArticle)
    (now : Int) (sc : ScoredArticle)
    (h : (process_article s a now).1 = some sc) :
    (0 ≤ sc.keyword_score ∧ sc.keyword_score ≤ 1) ∧
    (0 ≤ sc.velocity_score ∧ sc.velocity_score ≤ 1) ∧
    (0 ≤ sc.category_score ∧ sc.category_score ≤ 1) ∧
    (0 ≤ sc.recency_score ∧ sc.recency_score ≤ 1) ∧
    (0 ≤ sc.total_score ∧ sc.total_score ≤ 1) := by
  obtain ⟨-, hk, -, hv, hc, hr, htot, -, -, -⟩ :=
    process_article_some_eq s a now sc h
  have bk := keyword_score_bounds a.title
  have bv := velocity_score_bounds
    { s with seen_hashes := setAdd s.seen_hashes (hash_content a.title) }
    (extract_topic a.title) a.pub_date a.id
  have bc := category_score_bounds a.category
  have br := recency_score_bounds s.simulation_time a.pub_date
  rw [← hk] at bk
  rw [← hv] at bv
  rw [← hc] at bc
  rw [← hr] at br
  refine ⟨bk, bv, bc, br, ?_⟩
  rw [htot]
  unfold WEIGHT_KEYWORD WEIGHT_VELOCITY WEIGHT_CATEGORY WEIGHT_RECENCY
  constructor
  · nlinarith [bk.1, bv.1, bc.1, br.1]
  · nlinarith [bk.2, bv.2, bc.2, br.2]

/-- Witness for C4 at `wArticle`. -/
theorem scores_in_unit_interval_witness :
    (process_article {} wArticle 7).1 = some wScored ∧
    ((0 ≤ wScored.keyword_score ∧ wScored.keyword_score ≤ 1) ∧
     (0 ≤ wScored.velocity_score ∧ wScored.velocity_score ≤ 1) ∧
     (0 ≤ wScored.category_score ∧ wScored.category_score ≤ 1) ∧
     (0 ≤ wScored.recency_score ∧ wScored.recency_score ≤ 1) ∧
     (0 ≤ wScored.total_score ∧ wScored.total_score ≤ 1)) :=
  ⟨by with_unfolding_all rfl,
   scores_in_unit_interval {} wArticle 7 wScored
     (by with_unfolding_all rfl)⟩

/-- C10: the replay step sets the simulated clock to the article's own
publish time before scoring, so every article it scores (i.e. does not
skip as a duplicate) has `recency_score = 1`. -/
theorem replay_recency_score_is_one (s : StateStore) (a : NewsArticle)
    (now : Int) (sc : ScoredArticle)
    (h : (process_stream_step s a now).1 = some sc) :
    sc.recency_score = 1 := by
  unfold process_stream_step at h
  obtain ⟨-, -, -, -, -, hr, -, -, -, -⟩ :=
    process_article_some_eq _ _ _ _ h
  rw [hr]
  show calculate_recency_score (some a.pub_date) a.pub_date = 1
  unfold calculate_recency_score
  dsimp only
  rw [if_pos]
  rw [sub_self, zero_div]
  norm_num

/-- Witness for C10 at `wArticle`. -/
theorem replay_recency_score_is_one_witness :
    (process_stream_step {} wArticle 7).1 = some wScored ∧
    wScored.recency_score = 1 :=
  ⟨by with_unfolding_all rfl,
   replay_recency_score_is_one {} wArticle 7 wScored
     (by with_unfolding_all rfl)⟩

/-- When the content hash is already in the dedup set, `_process_article`
returns immediately, mutating nothing. -/
theorem process_article_skip (s : StateStore) (a : NewsArticle) (now : Int)
    (h : s.seen_hashes.contains (hash_content a.title) = true) :
    process_article s a now = (none, s) := by
  simp only [process_article, h, if_true]

theorem velocity_preserves_seen (s : StateStore) (topic : String)
    (pub_date : Int) (article_id : String) :
    (calculate_velocity_score s topic pub_date article_id).2.seen_hashes
      = s.seen_hashes := by
  unfold calculate_velocity_score
  dsimp only
  split <;> rfl

/-- When the dedup gate does not skip, processing appends exactly the
article's content hash to `seen_hashes`. -/
theorem process_article_seen (s : StateStore) (a : NewsArticle) (now : Int)
    (hFresh : s.seen_hashes.contains (hash_content a.title) = false) :
    (process_article s a now).2.seen_hashes
      = s.seen_hashes ++ [hash_content a.title] := by
  have hmem : hash_content a.title ∉ s.seen_hashes := by
    simpa using hFresh
  simp only [process_article, hFresh, Bool.false_eq_true, if_false]
  dsimp only
  split <;> simp [velocity_preserves_seen, setAdd, hFresh, hmem]

/-- C5: when two articles have titles that are identical after
normalization (lowercased, trimmed) and the first is fresh, the second is
skipped before any scoring: it returns no scored article and leaves the
store untouched, `seen_hashes` grows by exactly 1 across both, and the
topic windows, breaking-news map and processed counter are exactly those
left by the first article. -/
theorem duplicate_title_skipped (s0 : StateStore) (a1 a2 : NewsArticle)
    (now1 now2 : Int)
    (hnorm : (a1.title.toLower).trim = (a2.title.toLower).trim)
    (hFresh : s0.seen_hashes.contains (hash_content a1.title) = false) :
    (process_article (process_article s0 a1 now1).2 a2 now2).1 = none ∧
    (process_article (process_article s0 a1 now1).2 a2 now2).2
      = (process_article s0 a1 now1).2 ∧
    (process_article (process_article s0 a1 now1).2 a2 now2).2.seen_hashes.length
      = s0.seen_hashes.length + 1 ∧
    (process_article (process_article s0 a1 now1).2 a2 now2).2.topic_windows
      = (process_article s0 a1 now1).2.topic_windows ∧
    (process_article (process_article s0 a1 now1).2 a2 now2).2.breaking_news
      = (process_article s0 a1 now1).2.breaking_news ∧
    (process_article (process_article s0 a1 now1).2 a2 now2).2.total_processed
      = (process_article s0 a1 now1).2.total_processed := by
  have hhash : hash_content a2.title = hash_content a1.title := by
    unfold hash_content
    exact hnorm.symm
  have hseen : (process_article s0 a1 now1).2.seen_hashes
      = s0.seen_hashes ++ [hash_content a1.title] :=
    process_article_seen s0 a1 now1 hFresh
  have hc2 : (process_article s0 a1 now1).2.seen_hashes.contains
      (hash_content a2.title) = true := by
    rw [hseen, hhash]
    simp
  have hskip : process_article (process_article s0 a1 now1).2 a2 now2
      = (none, (process_article s0 a1 now1).2) :=
    process_article_skip _ a2 now2 hc2
  refine ⟨by rw [hskip], by rw [hskip], ?_, by rw [hskip], by rw [hskip],
    by rw [hskip]⟩
  rw [hskip]
  dsimp only
  rw [hseen]
  simp

set_option maxHeartbeats 1000000 in
/-- Witness for C5: `wArticle` then `wArticle2` on an empty store. -/
theorem duplicate_title_skipped_witness :
    ((wArticle.title.toLower).trim = (wArticle2.title.toLower).trim ∧
     ({} : StateStore).seen_hashes.contains (hash_content wArticle.title)
       = false) ∧
    (process_article (process_article {} wArticle 7).2 wArticle2 8).1 = none ∧
    (process_article (process_article {} wArticle 7).2 wArticle2 8).2
      = (process_article {} wArticle 7).2 ∧
    (process_article (process_article {} wArticle 7).2 wArticle2 8).2.seen_hashes.length
      = ({} : StateStore).seen_hashes.length + 1 ∧
    (process_article (process_article {} wArticle 7).2 wArticle2 8).2.topic_windows
      = (process_article {} wArticle 7).2.topic_windows ∧
    (process_article (process_article {} wArticle 7).2 wArticle2 8).2.breaking_news
      = (process_article {} wArticle 7).2.breaking_news ∧
    (process_article (process_article {} wArticle 7).2 wArticle2 8).2.total_processed
      = (process_article {} wArticle 7).2.total_processed :=
  by
  have h1 : (wArticle.title.toLower).trim = (wArticle2.title.toLower).trim := rfl
  have h2 : ({} : StateStore).seen_hashes.contains (hash_content wArticle.title)
      = false := rfl
  exact ⟨⟨h1, h2⟩, duplicate_title_skipped {} wArticle wArticle2 7 8 h1 h2⟩

theorem mapM_loop_decodeStr (l acc : List String) :
    List.mapM.loop decodeStr (l.map Json.str) acc = some (acc.reverse ++ l) := by
  induction l generalizing acc with
  | nil => simp [List.mapM.loop]
  | cons x xs ih => simp [List.mapM.loop, decodeStr, ih]

/-- Decoding inverts encoding on articles. -/
theorem decodeNews_encodeNews (a : NewsArticle) :
    decodeNews (encodeNews a) = some a := by
  obtain ⟨id, title, desc, pub, link, cat⟩ := a
  cases cat <;> rfl

/-- Decoding inverts encoding on scored articles whose score fields
satisfy the pydantic `[0,1]` validators — as every value the pipeline
constructs does. -/
theorem decodeScored_encodeScored (sa : ScoredArticle)
    (hk1 : 0 ≤ sa.keyword_score) (hk2 : sa.keyword_score ≤ 1)
    (hv1 : 0 ≤ sa.velocity_score) (hv2 : sa.velocity_score ≤ 1)
    (hc1 : 0 ≤ sa.category_score) (hc2 : sa.category_score ≤ 1)
    (hr1 : 0 ≤ sa.recency_score) (hr2 : sa.recency_score ≤ 1)
    (ht1 : 0 ≤ sa.total_score) (ht2 : sa.total_score ≤ 1) :
    decodeScored (encodeScored sa) = some sa := by
  obtain ⟨a, k, v, c, r, t, brk, kws, top, det⟩ := sa
  simp only at hk1 hk2 hv1 hv2 hc1 hc2 hr1 hr2 ht1 ht2
  cases top <;>
    simp [encodeScored, decodeScored, decodeScore, decodeBool, decodeTime,
      decodeOptStr, decodeStrList, List.mapM, mapM_loop_decodeStr,
      decodeNews_encodeNews, List.lookup,
      hk1, hk2, hv1, hv2, hc1, hc2, hr1, hr2, ht1, ht2]

/-- C8: writing a `ScoredArticle` as a breaking-news entry through the
shared backend and reading it back yields a value equal to the original
in every field, nested article, keyword list, topic and timestamps
included. -/
theorem scored_article_roundtrip (store : List (String × Blob))
    (key : String) (sa : ScoredArticle)
    (hk : 0 ≤ sa.keyword_score ∧ sa.keyword_score ≤ 1)
    (hv : 0 ≤ sa.velocity_score ∧ sa.velocity_score ≤ 1)
    (hc : 0 ≤ sa.category_score ∧ sa.category_score ≤ 1)
    (hr : 0 ≤ sa.recency_score ∧ sa.recency_score ≤ 1)
    (ht : 0 ≤ sa.total_score ∧ sa.total_score ≤ 1) :
    redisDictGet (redisDictSet store key sa) key = some sa := by
  unfold redisDictGet redisDictSet
  rw [dictSet_lookup_self]
  exact decodeScored_encodeScored sa hk.1 hk.2 hv.1 hv.2 hc.1 hc.2 hr.1 hr.2
    ht.1 ht.2

/-- Witness for C8 at `wScored`. -/
theorem scored_article_roundtrip_witness :
    ((0 ≤ wScored.keyword_score ∧ wScored.keyword_score ≤ 1) ∧
     (0 ≤ wScored.velocity_score ∧ wScored.velocity_score ≤ 1) ∧
     (0 ≤ wScored.category_score ∧ wScored.category_score ≤ 1) ∧
     (0 ≤ wScored.recency_score ∧ wScored.recency_score ≤ 1) ∧
     (0 ≤ wScored.total_score ∧ wScored.total_score ≤ 1)) ∧
    redisDictGet (redisDictSet [] "k" wScored) "k" = some wScored := by
  have hk : 0 ≤ wScored.keyword_score ∧ wScored.keyword_score ≤ 1 := by
    norm_num [wScored]
  have hv : 0 ≤ wScored.velocity_score ∧ wScored.velocity_score ≤ 1 := by
    norm_num [wScored]
  have hc : 0 ≤ wScored.category_score ∧ wScored.category_score ≤ 1 := by
    norm_num [wScored]
  have hr : 0 ≤ wScored.recency_score ∧ wScored.recency_score ≤ 1 := by
    norm_num [wScored]
  have ht : 0 ≤ wScored.total_score ∧ wScored.total_score ≤ 1 := by
    norm_num [wScored]
  exact ⟨⟨hk, hv, hc, hr, ht⟩,
    scored_article_roundtrip [] "k" wScored hk hv hc hr ht⟩

theorem lookup_map_snd {α β : Type} (g : α → β) (l : List (String × α))
    (t : String) :
    (l.map (fun e => (e.1, g e.2))).lookup t = (l.lookup t).map g := by
  induction l with
  | nil => rfl
  | cons e tl ih =>
      simp only [List.map, List.lookup]
      cases h : (t == e.1) <;> simp [h, ih]

theorem filter_length_lt_iff_ne {α : Type} (p : α → Bool) (w : List α) :
    (w.filter p).length < w.length ↔ ¬ w.filter p = w := by
  constructor
  · intro h hEq
    rw [hEq] at h
    exact lt_irrefl _ h
  · intro h
    rcases lt_or_eq_of_le (List.length_filter_le p w) with hlt | heq
    · exact hlt
    · exact absurd ((List.filter_sublist w).eq_of_length heq) h

/-- C7 counterexample: on the Redis-backed store, a topic whose entries
all fall at or before the wider cutoff loses its key entirely — the
emptied sorted set ceases to exist — contradicting the claim that
cleanup never removes a topic key on both implementations. -/
theorem redis_cleanup_drops_topic_key :
    RedisStateStore.cleanup_topic_windows (some 10000) 0 [("x", [(50, "b")])]
      = ([], 1) ∧
    (RedisStateStore.cleanup_topic_windows (some 10000) 0
        [("x", [(50, "b")])]).1.lookup "x" = none :=
  ⟨rfl, rfl⟩

/-- C7 amended: on the in-process store, `cleanup_topic_windows` prunes
each topic's window to the entries with timestamp at or after
`clock − 2 · velocity window minutes`, never removes a topic key (even
when the window empties), and returns the number of topics whose window
changed.  (The Redis-backed implementation differs: its inclusive
`ZREMRANGEBYSCORE` bound also removes entries exactly at the cutoff, and
it drops the key of a topic whose window becomes empty.) -/
theorem cleanup_topic_windows_pruning (now : Int) (s : StateStore) :
    ((s.cleanup_topic_windows now).1.topic_windows.map Prod.fst
       = s.topic_windows.map Prod.fst) ∧
    (∀ t w, s.topic_windows.lookup t = some w →
       (s.cleanup_topic_windows now).1.topic_windows.lookup t
         = some (w.filter
             (fun p => s.currentTime now - VELOCITY_WINDOW_MINUTES * 2 * 60 ≤ p.1))) ∧
    ((s.cleanup_topic_windows now).2
       = s.topic_windows.countP
           (fun e => decide (¬ e.2.filter
               (fun p => s.currentTime now - VELOCITY_WINDOW_MINUTES * 2 * 60 ≤ p.1)
             = e.2))) := by
  refine ⟨?_, ?_, ?_⟩
  · simp only [StateStore.cleanup_topic_windows, List.map_map]
    rfl
  · intro t w hw
    simp only [StateStore.cleanup_topic_windows]
    rw [lookup_map_snd, hw]
    rfl
  · simp only [StateStore.cleanup_topic_windows]
    apply List.countP_congr
    intro e _
    simp only [decide_eq_true_eq]
    exact filter_length_lt_iff_ne _ _

/-- Witness for C7's amended theorem at a two-entry window straddling
the cutoff. -/
theorem cleanup_topic_windows_pruning_witness :
    ({ topic_windows := [("t", [(0, "a"), (7200, "b")])],
       simulation_time := some 7200 } : StateStore).topic_windows.lookup "t"
      = some [(0, "a"), (7200, "b")] ∧
    (({ topic_windows := [("t", [(0, "a"), (7200, "b")])],
        simulation_time := some 7200 } : StateStore).cleanup_topic_windows
          0).1.topic_windows.lookup "t"
      = some ([(0, "a"), (7200, "b")].filter
          (fun p => (7200 : Int) - VELOCITY_WINDOW_MINUTES * 2 * 60 ≤ p.1)) :=
  ⟨rfl,
   (cleanup_topic_windows_pruning 0
       { topic_windows := [("t", [(0, "a"), (7200, "b")])],
         simulation_time := some 7200 }).2.1
     "t" [(0, "a"), (7200, "b")] rfl⟩

/-- C1: the two store backends are not bit-exact.  With the simulated
clock at 3700 and one window entry at timestamp 100 — exactly the cutoff
`3700 − 2·30·60` — the in-process `cleanup_topic_windows` keeps the entry
(its filter keeps `t ≥ cutoff`) and reports 0 changed topics, while the
Redis implementation removes it (`ZREMRANGEBYSCORE -inf cutoff` is
inclusive), reports 1, and drops the now-empty topic key. -/
theorem backend_cleanup_divergence :
    (({ topic_windows := [("t", [(100, "a")])],
        simulation_time := some 3700 } : StateStore).cleanup_topic_windows 0).2
      = 0 ∧
    (({ topic_windows := [("t", [(100, "a")])],
        simulation_time := some 3700 } : StateStore).cleanup_topic_windows
          0).1.topic_windows
      = [("t", [(100, "a")])] ∧
    RedisStateStore.cleanup_topic_windows (some 3700) 0 [("t", [(100, "a")])]
      = ([], 1) :=
  ⟨rfl, rfl, rfl⟩

/-- Case analysis of one record under the shared-store cleanup: the loop
body raises exactly on the `blobRaises` shapes, and otherwise deletes and
counts the record according to `blobDeleted` and `blobExpired`. -/
theorem redisCleanupRecord_cases (cutoff : Int) (b : Blob) :
    (redisCleanupRecord cutoff b = Except.error () ↔ blobRaises b = true) ∧
    (blobRaises b = false →
      redisCleanupRecord cutoff b
        = Except.ok (blobDeleted cutoff b, blobExpired cutoff b)) := by
  rcases b with _ | s | j
  · simp [redisCleanupRecord, blobRaises, blobDeleted, blobExpired]
  · simp [redisCleanupRecord, blobRaises, blobDeleted, blobExpired]
  · rcases j with _ | bb | q | ss | tt | xs | fs
    · simp [redisCleanupRecord, blobRaises, blobDeleted, blobExpired]
    · simp [redisCleanupRecord, blobRaises, blobDeleted, blobExpired]
    · simp [redisCleanupRecord, blobRaises, blobDeleted, blobExpired]
    · simp [redisCleanupRecord, blobRaises, blobDeleted, blobExpired]
    · simp [redisCleanupRecord, blobRaises, blobDeleted, blobExpired]
    · simp [redisCleanupRecord, blobRaises, blobDeleted, blobExpired]
    · cases hl : fs.lookup "detected_at" with
      | none =>
          simp [redisCleanupRecord, blobRaises, blobDeleted, blobExpired, hl]
      | some v =>
          rcases v with _ | b2 | q2 | s2 | t2 | xs2 | fs2
          · simp [redisCleanupRecord, blobRaises, blobDeleted, blobExpired,
              hl, jsonTruthy]
          · cases b2 <;>
              simp [redisCleanupRecord, blobRaises, blobDeleted, blobExpired,
                hl, jsonTruthy]
          · by_cases hq : q2 = 0 <;>
              simp [redisCleanupRecord, blobRaises, blobDeleted, blobExpired,
                hl, jsonTruthy, hq]
          · by_cases hs : s2 = "" <;>
              simp [redisCleanupRecord, blobRaises, blobDeleted, blobExpired,
                hl, jsonTruthy, hs]
          · by_cases htc : t2 < cutoff <;>
              simp [redisCleanupRecord, blobRaises, blobDeleted, blobExpired,
                hl, jsonTruthy, htc]
          · cases xs2 <;>
              simp [redisCleanupRecord, blobRaises, blobDeleted, blobExpired,
                hl, jsonTruthy]
          · cases fs2 <;>
              simp [redisCleanupRecord, blobRaises, blobDeleted, blobExpired,
                hl, jsonTruthy]

/-- The scan loop on a store without raising shapes: kept records are
exactly the non-deleted ones, in order, and the count is the number of
expired timestamps. -/
theorem redisCleanupGo_ok (cutoff : Int) (entries : List (String × Blob))
    (h : ∀ e ∈ entries, blobRaises e.2 = false) :
    redisCleanupGo cutoff entries
      = Except.ok (entries.filter (fun e => ¬ blobDeleted cutoff e.2),
                   entries.countP (fun e => blobExpired cutoff e.2)) := by
  induction entries with
  | nil => rfl
  | cons e rest ih =>
      have he := h e (List.mem_cons_self _ _)
      have hrest := ih (fun x hx => h x (List.mem_cons_of_mem _ hx))
      have hrec := (redisCleanupRecord_cases cutoff e.2).2 he
      simp only [redisCleanupGo, hrec, hrest]
      by_cases hd : blobDeleted cutoff e.2 <;>
        by_cases hx : blobExpired cutoff e.2 <;>
          simp [hd, hx, List.countP_cons, Nat.add_comm]

/-- C9 counterexample: a record persisting as the JSON array `[]` makes
the cleanup raise an uncaught error instead of being discarded, and a
record persisting as the JSON object `{}` — undecodable as a
`ScoredArticle` — is kept in the store rather than deleted. -/
theorem malformed_record_not_discarded :
    RedisStateStore.cleanup_expired_breaking_news none 1 0
      [("k", Blob.json (Json.arr []))] = Except.error () ∧
    RedisStateStore.cleanup_expired_breaking_news none 1 0
      [("k2", Blob.json (Json.obj []))]
        = Except.ok ([("k2", Blob.json (Json.obj []))], 0) ∧
    decodeScored (Json.obj []) = none :=
  ⟨rfl, rfl, rfl⟩

/-- C9 amended: when no persisted record parses to a JSON non-object or
carries a truthy non-string `detected_at` (those shapes raise an uncaught
error), the cleanup deletes exactly the records that fail JSON parsing,
the records whose truthy `detected_at` string fails timestamp parsing,
and the genuinely expired records, counting only the last kind; records
parsing to objects without a truthy `detected_at` are kept. -/
theorem redis_cleanup_malformed_handling (sim : Option Int)
    (ttl_hours now : Int) (entries : List (String × Blob))
    (h : ∀ e ∈ entries, blobRaises e.2 = false) :
    RedisStateStore.cleanup_expired_breaking_news sim ttl_hours now entries
      = Except.ok
          (entries.filter
             (fun e => ¬ blobDeleted (sim.getD now - ttl_hours * 3600) e.2),
           entries.countP
             (fun e => blobExpired (sim.getD now - ttl_hours * 3600) e.2)) :=
  redisCleanupGo_ok _ entries h

/-- Witness for C9's amended theorem: an unparseable record, an expired
record and a field-less object record. -/
theorem redis_cleanup_malformed_handling_witness :
    (∀ e ∈ ([("a", Blob.invalid "oops"),
             ("b", Blob.json (Json.obj [("detected_at", Json.tstr 5)])),
             ("c", Blob.json (Json.obj []))] : List (String × Blob)),
        blobRaises e.2 = false) ∧
    RedisStateStore.cleanup_expired_breaking_news none 0 100
      [("a", Blob.invalid "oops"),
       ("b", Blob.json (Json.obj [("detected_at", Json.tstr 5)])),
       ("c", Blob.json (Json.obj []))]
      = Except.ok ([("c", Blob.json (Json.obj []))], 1) := by
  have h : ∀ e ∈ ([("a", Blob.invalid "oops"),
           ("b", Blob.json (Json.obj [("detected_at", Json.tstr 5)])),
           ("c", Blob.json (Json.obj []))] : List (String × Blob)),
      blobRaises e.2 = false := by decide
  exact ⟨h, redis_cleanup_malformed_handling none 0 100 _ h⟩

end BreakingNews
